import Mathlib

/-!
Shallow embedding of the DevDash touch-gesture classifier
(`src/devdash/ui/touch.py`) and screen manager
(`src/devdash/ui/screen_manager.py`, `src/devdash/screens/base.py`),
with theorems settling the behavioural claims about them.

Conventions of the embedding:
* pixel coordinates are `Int` (Python ints; FINGERDOWN/FINGERUP events have
  their normalised coordinates already scaled to pixels, exactly as the
  Python code does before storing them);
* wall-clock instants and durations from `time.monotonic()` are `ℚ`
  (seconds), so comparisons are exact and decidable;
* side effects (lifecycle hooks, logging, task scheduling) are recorded as
  explicit event traces, and a raising `refresh_data` is a `Bool` flag per
  screen;
* `pygame.QUIT` and the `q` key, which raise `SystemExit`, are outside the
  modelled event alphabet: no claim concerns them.
-/

namespace DevDash

/-! ## touch.py -/

def SWIPE_THRESHOLD : Int := 50

def LONG_PRESS_MS : ℚ := 600

def TAP_MAX_MS : ℚ := 300

inductive GestureType
  | tap
  | swipeLeft
  | swipeRight
  | swipeUp
  | swipeDown
  | longPress
deriving DecidableEq, Repr

structure Gesture where
  type : GestureType
  x : Int
  y : Int
  start_x : Int
  start_y : Int
deriving DecidableEq, Repr

/-- State of `TouchHandler`: the `_touch_start` coordinates (if a touch
session is active) and `_touch_start_time`. -/
structure TouchState where
  touch_start : Option (Int × Int)
  touch_start_time : ℚ
deriving DecidableEq, Repr

/-- `TouchHandler._classify`: swipe if either displacement exceeds the
threshold (larger axis wins, ties to the vertical branch), else long press
if the duration exceeds 600 ms, else tap. -/
def classify (sx sy x y dx dy : Int) (duration : ℚ) : Option Gesture :=
  let abs_dx := |dx|
  let abs_dy := |dy|
  if abs_dx > SWIPE_THRESHOLD ∨ abs_dy > SWIPE_THRESHOLD then
    let gt := if abs_dx > abs_dy then
        (if dx > 0 then GestureType.swipeRight else GestureType.swipeLeft)
      else
        (if dy > 0 then GestureType.swipeDown else GestureType.swipeUp)
    some ⟨gt, x, y, sx, sy⟩
  else if duration > LONG_PRESS_MS / 1000 then
    some ⟨GestureType.longPress, x, y, sx, sy⟩
  else
    some ⟨GestureType.tap, x, y, sx, sy⟩

/-- One PyGame event as seen by `TouchHandler.process_events`.  Pointer
events carry pixel coordinates and the `time.monotonic()` value observed
while the event is handled; the key events are the keyboard fallback. -/
inductive TouchEvent
  | down (x y : Int) (t : ℚ)
  | up (x y : Int) (t : ℚ)
  | keyLeft
  | keyRight
  | keyUp
  | keyDown
  | keyReturn
deriving DecidableEq, Repr

/-- Body of the `for event in pygame.event.get()` loop of
`TouchHandler.process_events`, for one event: updates the handler state and
appends any detected gesture. -/
def processStep (s : TouchState) (gs : List Gesture) :
    TouchEvent → TouchState × List Gesture
  | .down x y t => (⟨some (x, y), t⟩, gs)
  | .up x y t =>
    match s.touch_start with
    | none => (s, gs)
    | some (sx, sy) =>
      let dx := x - sx
      let dy := y - sy
      let duration := t - s.touch_start_time
      let gs' := match classify sx sy x y dx dy duration with
        | some g => gs ++ [g]
        | none => gs
      (⟨none, s.touch_start_time⟩, gs')
  | .keyLeft => (s, gs ++ [⟨GestureType.swipeLeft, 240, 160, 340, 160⟩])
  | .keyRight => (s, gs ++ [⟨GestureType.swipeRight, 240, 160, 140, 160⟩])
  | .keyUp => (s, gs ++ [⟨GestureType.swipeUp, 240, 160, 240, 260⟩])
  | .keyDown => (s, gs ++ [⟨GestureType.swipeDown, 240, 160, 240, 60⟩])
  | .keyReturn => (s, gs ++ [⟨GestureType.tap, 240, 160, 240, 160⟩])

/-- `TouchHandler.process_events`: run the event loop over the pending
events, then perform the held-long-press check at time `now`. -/
def process_events (s : TouchState) (events : List TouchEvent) (now : ℚ) :
    TouchState × List Gesture :=
  let r := events.foldl (fun acc e => processStep acc.1 acc.2 e) (s, [])
  match r.1.touch_start with
  | some (sx, sy) =>
    if now - r.1.touch_start_time > LONG_PRESS_MS / 1000 then
      (⟨none, r.1.touch_start_time⟩,
        r.2 ++ [⟨GestureType.longPress, sx, sy, sx, sy⟩])
    else r
  | none => r

/-! ## screen_manager.py -/

/-- One observable side effect of the screen manager: a lifecycle hook or
gesture hook invoked on the screen at the given index, the assignment to
`current_idx`, or the actions of the periodic-poll branch of `run`. -/
inductive MgrEvent
  | on_leave (idx : Nat)
  | set_idx (idx : Nat)
  | on_enter (idx : Nat)
  | hook_swipe_left (idx : Nat)
  | hook_swipe_right (idx : Nat)
  | hook_tap (idx : Nat)
  | hook_swipe_up (idx : Nat)
  | hook_long_press (idx : Nat)
deriving DecidableEq, Repr

/-- `ScreenManager.navigate(direction)`: move to `current_idx + direction`
when that lands inside `[0, n)`, calling `on_leave` on the old screen,
assigning the index, then `on_enter` on the new screen; otherwise do
nothing.  Returns the new index and the trace of effects. -/
def navigate (n : Nat) (current_idx : Nat) (direction : Int) :
    Nat × List MgrEvent :=
  let new_idx : Int := (current_idx : Int) + direction
  if 0 ≤ new_idx ∧ new_idx < (n : Int) then
    (new_idx.toNat,
      [.on_leave current_idx, .set_idx new_idx.toNat, .on_enter new_idx.toNat])
  else
    (current_idx, [])

/-- The `for i, s in enumerate(self.screens)` loop of
`ScreenManager.navigate_to`, carrying the running index `i`. -/
def navigateToLoop (screen_name : String) (current_idx : Nat) :
    List String → Nat → Nat × List MgrEvent
  | [], _ => (current_idx, [])
  | s :: rest, i =>
    if s = screen_name then
      if i ≠ current_idx then
        (i, [.on_leave current_idx, .set_idx i, .on_enter i])
      else
        (current_idx, [])
    else
      navigateToLoop screen_name current_idx rest (i + 1)

/-- `ScreenManager.navigate_to(screen_name)`: linear search over the
screens by name; at the first match, transition unless it is already the
current screen, then return. -/
def navigate_to (names : List String) (current_idx : Nat)
    (screen_name : String) : Nat × List MgrEvent :=
  navigateToLoop screen_name current_idx names 0

/-- The gesture-dispatch branch of `ScreenManager.run` for a single
gesture.  `consumeLeft` (resp. `consumeRight`) is what the current screen's
`on_swipe_left` (resp. `on_swipe_right`) returns.  `run` has no branch for
`SWIPE_DOWN`, so that gesture is dropped. -/
def dispatchGesture (n : Nat) (current_idx : Nat) (gt : GestureType)
    (consumeLeft consumeRight : Bool) : Nat × List MgrEvent :=
  match gt with
  | .swipeLeft =>
    if ¬ consumeLeft then
      let r := navigate n current_idx 1
      (r.1, .hook_swipe_left current_idx :: r.2)
    else
      (current_idx, [.hook_swipe_left current_idx])
  | .swipeRight =>
    if ¬ consumeRight then
      let r := navigate n current_idx (-1)
      (r.1, .hook_swipe_right current_idx :: r.2)
    else
      (current_idx, [.hook_swipe_right current_idx])
  | .tap => (current_idx, [.hook_tap current_idx])
  | .swipeUp => (current_idx, [.hook_swipe_up current_idx])
  | .longPress => (current_idx, [.hook_long_press current_idx])
  | .swipeDown => (current_idx, [])

/-- Recognise the `current_idx` assignment in a manager trace: one
navigation transition contributes exactly one such event. -/
def isSetIdx : MgrEvent → Bool
  | .set_idx _ => true
  | _ => false

/-- Result of `ScreenManager._poll_data`: which screens had `refresh_data`
invoked in this cycle, and the index whose exception the `except` branch
caught and logged, if any.  The function always returns (the exception is
absorbed), so the caller never crashes. -/
structure PollResult where
  invoked : List Nat
  logged : Option Nat
deriving DecidableEq, Repr

/-- The `for screen in self.screens: await screen.refresh_data()` loop
inside the `try` of `_poll_data`.  `raises` marks, per screen, whether its
`refresh_data` raises; the loop stops at the first raising screen and the
exception propagates to the `except` clause. -/
def refreshLoop : List Bool → Nat → List Nat × Option Nat
  | [], _ => ([], none)
  | r :: rest, i =>
    if r then
      ([i], some i)
    else
      let p := refreshLoop rest (i + 1)
      (i :: p.1, p.2)

/-- `ScreenManager._poll_data`: run the refresh loop; a propagated
exception is caught and logged (`logged`). -/
def poll_data (raises : List Bool) : PollResult :=
  let p := refreshLoop raises 0
  { invoked := p.1, logged := p.2 }

/-- Actions of the periodic-poll branch of `ScreenManager.run`:
the assignment `self._last_poll = now` and the
`asyncio.create_task(self._poll_data())` call, which schedules a background
task that will iterate over the listed screens. -/
inductive LoopAction
  | record_last_poll (t : ℚ)
  | schedule_refresh (screens : List Nat)
deriving DecidableEq, Repr

/-- The periodic-poll step of one `run` iteration (lines
`now = time.monotonic()` … `asyncio.create_task(self._poll_data())`):
given `_last_poll`, the current time and the configured poll interval,
return the new `_last_poll` and the ordered actions taken. -/
def pollCheck (n : Nat) (last_poll now poll_interval : ℚ) :
    ℚ × List LoopAction :=
  if now - last_poll > poll_interval then
    (now, [.record_last_poll now, .schedule_refresh (List.range n)])
  else
    (last_poll, [])

/-- `ScreenManager._get_overall_status` over the list of
`screen.get_status()` strings, in navigation order: return `"error"` or
`"warning"` at the first screen reporting it, else `"success"`. -/
def get_overall_status : List String → String
  | [] => "success"
  | s :: rest =>
    if s = "error" then "error"
    else if s = "warning" then "warning"
    else get_overall_status rest

/-! ## Helper lemmas -/

/-- Swipe gesture types, as opposed to tap and long press. -/
def isSwipe : GestureType → Bool
  | .swipeLeft => true
  | .swipeRight => true
  | .swipeUp => true
  | .swipeDown => true
  | .tap => false
  | .longPress => false

theorem classify_swipeRight (sx sy x y dx dy : Int) (d : ℚ)
    (h1 : 50 < |dx| ∨ 50 < |dy|) (h2 : |dy| < |dx|) (h3 : 0 < dx) :
    classify sx sy x y dx dy d = some ⟨GestureType.swipeRight, x, y, sx, sy⟩ := by
  simp [classify, SWIPE_THRESHOLD, h1, h2, h3]

theorem classify_swipeLeft (sx sy x y dx dy : Int) (d : ℚ)
    (h1 : 50 < |dx| ∨ 50 < |dy|) (h2 : |dy| < |dx|) (h3 : dx < 0) :
    classify sx sy x y dx dy d = some ⟨GestureType.swipeLeft, x, y, sx, sy⟩ := by
  have h3' : ¬ 0 < dx := by omega
  simp [classify, SWIPE_THRESHOLD, h1, h2, h3']

theorem classify_swipeDown (sx sy x y dx dy : Int) (d : ℚ)
    (h1 : 50 < |dx| ∨ 50 < |dy|) (h2 : ¬ |dy| < |dx|) (h3 : 0 < dy) :
    classify sx sy x y dx dy d = some ⟨GestureType.swipeDown, x, y, sx, sy⟩ := by
  simp [classify, SWIPE_THRESHOLD, h1, h2, h3]

theorem classify_swipeUp (sx sy x y dx dy : Int) (d : ℚ)
    (h1 : 50 < |dx| ∨ 50 < |dy|) (h2 : ¬ |dy| < |dx|) (h3 : dy < 0) :
    classify sx sy x y dx dy d = some ⟨GestureType.swipeUp, x, y, sx, sy⟩ := by
  have h3' : ¬ 0 < dy := by omega
  simp [classify, SWIPE_THRESHOLD, h1, h2, h3']

theorem classify_longPress (sx sy x y dx dy : Int) (d : ℚ)
    (h1 : ¬ (50 < |dx| ∨ 50 < |dy|)) (h2 : LONG_PRESS_MS / 1000 < d) :
    classify sx sy x y dx dy d = some ⟨GestureType.longPress, x, y, sx, sy⟩ := by
  simp [classify, SWIPE_THRESHOLD, h1, h2]

theorem classify_tap (sx sy x y dx dy : Int) (d : ℚ)
    (h1 : ¬ (50 < |dx| ∨ 50 < |dy|)) (h2 : ¬ LONG_PRESS_MS / 1000 < d) :
    classify sx sy x y dx dy d = some ⟨GestureType.tap, x, y, sx, sy⟩ := by
  simp [classify, SWIPE_THRESHOLD, h1, h2]

theorem classify_isSwipe (sx sy x y dx dy : Int) (d : ℚ) (g : Gesture)
    (hg : classify sx sy x y dx dy d = some g) :
    (isSwipe g.type = true ↔ (50 < |dx| ∨ 50 < |dy|)) := by
  by_cases h1 : 50 < |dx| ∨ 50 < |dy|
  · simp only [classify, SWIPE_THRESHOLD] at hg
    rw [if_pos h1] at hg
    obtain rfl : Gesture.mk
        (if |dx| > |dy| then
          (if dx > 0 then GestureType.swipeRight else GestureType.swipeLeft)
        else
          (if dy > 0 then GestureType.swipeDown else GestureType.swipeUp))
        x y sx sy = g := by exact_mod_cast Option.some.inj hg
    simp only [h1, iff_true]
    split_ifs <;> rfl
  · simp only [classify, SWIPE_THRESHOLD] at hg
    rw [if_neg h1] at hg
    by_cases h2 : d > LONG_PRESS_MS / 1000
    · rw [if_pos h2] at hg
      obtain rfl := Option.some.inj hg
      simpa [isSwipe] using h1
    · rw [if_neg h2] at hg
      obtain rfl := Option.some.inj hg
      simpa [isSwipe] using h1

/-- Processing a pointer-down followed by the matching pointer-up leaves no
active session and emits exactly the gesture `_classify` returns. -/
theorem process_events_pair (s0 : TouchState) (sx sy x y : Int) (t0 t1 now : ℚ)
    (g : Gesture)
    (hg : classify sx sy x y (x - sx) (y - sy) (t1 - t0) = some g) :
    process_events s0 [TouchEvent.down sx sy t0, TouchEvent.up x y t1] now
      = (⟨none, t0⟩, [g]) := by
  simp [process_events, processStep, hg]

/-! ## Claims about the touch classifier -/

/-- C2: for a pointer-down at `(sx, sy)` (time `t0`) followed by the
matching pointer-up at `(x, y)` (time `t1`), with `dx = x - sx`,
`dy = y - sy` and duration `d = t1 - t0`: the classifier emits a swipe iff
`|dx| > 50` or `|dy| > 50`, the axis of strictly larger magnitude fixing
the direction (`dx > 0` → SwipeRight, `dx < 0` → SwipeLeft, `dy > 0` →
SwipeDown, `dy < 0` → SwipeUp); otherwise it emits a LongPress iff
`d > 600 ms`; otherwise exactly one Tap at the up-event position. -/
theorem claim_C2 (s0 : TouchState) (sx sy x y dx dy : Int) (t0 t1 d now : ℚ)
    (hdx : dx = x - sx) (hdy : dy = y - sy) (hd : d = t1 - t0) :
    (∀ g : Gesture,
      (process_events s0 [TouchEvent.down sx sy t0, TouchEvent.up x y t1] now).2
          = [g] →
      (isSwipe g.type = true ↔ (50 < |dx| ∨ 50 < |dy|)))
    ∧ ((50 < |dx| ∨ 50 < |dy|) → |dy| < |dx| → 0 < dx →
      (process_events s0 [TouchEvent.down sx sy t0, TouchEvent.up x y t1] now).2
          = [⟨GestureType.swipeRight, x, y, sx, sy⟩])
    ∧ ((50 < |dx| ∨ 50 < |dy|) → |dy| < |dx| → dx < 0 →
      (process_events s0 [TouchEvent.down sx sy t0, TouchEvent.up x y t1] now).2
          = [⟨GestureType.swipeLeft, x, y, sx, sy⟩])
    ∧ ((50 < |dx| ∨ 50 < |dy|) → |dx| < |dy| → 0 < dy →
      (process_events s0 [TouchEvent.down sx sy t0, TouchEvent.up x y t1] now).2
          = [⟨GestureType.swipeDown, x, y, sx, sy⟩])
    ∧ ((50 < |dx| ∨ 50 < |dy|) → |dx| < |dy| → dy < 0 →
      (process_events s0 [TouchEvent.down sx sy t0, TouchEvent.up x y t1] now).2
          = [⟨GestureType.swipeUp, x, y, sx, sy⟩])
    ∧ (¬ (50 < |dx| ∨ 50 < |dy|) → LONG_PRESS_MS / 1000 < d →
      (process_events s0 [TouchEvent.down sx sy t0, TouchEvent.up x y t1] now).2
          = [⟨GestureType.longPress, x, y, sx, sy⟩])
    ∧ (¬ (50 < |dx| ∨ 50 < |dy|) → ¬ LONG_PRESS_MS / 1000 < d →
      (process_events s0 [TouchEvent.down sx sy t0, TouchEvent.up x y t1] now).2
          = [⟨GestureType.tap, x, y, sx, sy⟩]) := by
  subst hdx hdy hd
  refine ⟨?_, ?_, ?_, ?_, ?_, ?_, ?_⟩
  · intro g hres
    have hc : ∃ g', classify sx sy x y (x - sx) (y - sy) (t1 - t0) = some g' := by
      by_cases h1 : 50 < |x - sx| ∨ 50 < |y - sy|
      · by_cases h2 : |y - sy| < |x - sx|
        · by_cases h3 : 0 < x - sx
          · exact ⟨_, classify_swipeRight sx sy x y _ _ _ h1 h2 h3⟩
          · have h3' : x - sx < 0 := by
              rcases (not_lt.mp h3).lt_or_eq with h | h
              · exact h
              · exfalso
                rw [h, abs_zero] at h2
                exact absurd h2 (not_lt.mpr (abs_nonneg _))
            exact ⟨_, classify_swipeLeft sx sy x y _ _ _ h1 h2 h3'⟩
        · by_cases h3 : 0 < y - sy
          · exact ⟨_, classify_swipeDown sx sy x y _ _ _ h1 h2 h3⟩
          · have h3' : y - sy < 0 := by
              rcases (not_lt.mp h3).lt_or_eq with h | h
              · exact h
              · exfalso
                rw [h, abs_zero] at h2
                have hx : |x - sx| = 0 :=
                  le_antisymm (not_lt.mp h2) (abs_nonneg _)
                rcases h1 with h1 | h1
                · rw [hx] at h1; exact absurd h1 (by norm_num)
                · rw [h, abs_zero] at h1; exact absurd h1 (by norm_num)
            exact ⟨_, classify_swipeUp sx sy x y _ _ _ h1 h2 h3'⟩
      · by_cases h2 : LONG_PRESS_MS / 1000 < t1 - t0
        · exact ⟨_, classify_longPress sx sy x y _ _ _ h1 h2⟩
        · exact ⟨_, classify_tap sx sy x y _ _ _ h1 h2⟩
    obtain ⟨g', hg'⟩ := hc
    have := process_events_pair s0 sx sy x y t0 t1 now g' hg'
    rw [this] at hres
    simp at hres
    subst hres
    exact classify_isSwipe sx sy x y _ _ _ g' hg'
  · intro h1 h2 h3
    rw [process_events_pair s0 sx sy x y t0 t1 now _
      (classify_swipeRight sx sy x y _ _ _ h1 h2 h3)]
  · intro h1 h2 h3
    rw [process_events_pair s0 sx sy x y t0 t1 now _
      (classify_swipeLeft sx sy x y _ _ _ h1 h2 h3)]
  · intro h1 h2 h3
    have h2' : ¬ |y - sy| < |x - sx| := by omega
    rw [process_events_pair s0 sx sy x y t0 t1 now _
      (classify_swipeDown sx sy x y _ _ _ h1 h2' h3)]
  · intro h1 h2 h3
    have h2' : ¬ |y - sy| < |x - sx| := by omega
    rw [process_events_pair s0 sx sy x y t0 t1 now _
      (classify_swipeUp sx sy x y _ _ _ h1 h2' h3)]
  · intro h1 h2
    rw [process_events_pair s0 sx sy x y t0 t1 now _
      (classify_longPress sx sy x y _ _ _ h1 h2)]
  · intro h1 h2
    rw [process_events_pair s0 sx sy x y t0 t1 now _
      (classify_tap sx sy x y _ _ _ h1 h2)]

/-- Witness for C2 at concrete inputs: a short small-displacement press is
exactly one Tap at the up position, and a long horizontal drag is a
SwipeRight. -/
theorem claim_C2_witness :
    (process_events ⟨none, 0⟩
        [TouchEvent.down 0 0 0, TouchEvent.up 10 5 (1/10)] 0).2
      = [⟨GestureType.tap, 10, 5, 0, 0⟩]
    ∧ (process_events ⟨none, 0⟩
        [TouchEvent.down 0 0 0, TouchEvent.up 100 5 (1/10)] 0).2
      = [⟨GestureType.swipeRight, 100, 5, 0, 0⟩] := by
  constructor
  · exact (claim_C2 ⟨none, 0⟩ 0 0 10 5 10 5 0 (1/10) (1/10) 0
      (by norm_num) (by norm_num) (by norm_num)).2.2.2.2.2.2
      (by norm_num) (by norm_num [LONG_PRESS_MS])
  · exact (claim_C2 ⟨none, 0⟩ 0 0 100 5 100 5 0 (1/10) (1/10) 0
      (by norm_num) (by norm_num) (by norm_num)).2.1
      (by norm_num) (by norm_num) (by norm_num)

/-- C4: when a touch session is active and more than 600 ms have elapsed
without a pointer-up, the frame's `process_events` emits exactly one
LongPress at the session's start coordinates and clears the session; a
subsequent frame of the same interaction (session cleared, no new events)
emits nothing, so the LongPress fires exactly once. -/
theorem claim_C4 (sx sy : Int) (t0 now now' : ℚ)
    (h : now - t0 > LONG_PRESS_MS / 1000) :
    process_events ⟨some (sx, sy), t0⟩ [] now
        = (⟨none, t0⟩, [⟨GestureType.longPress, sx, sy, sx, sy⟩])
    ∧ process_events ⟨none, t0⟩ [] now' = (⟨none, t0⟩, []) := by
  constructor
  · simp [process_events, h]
  · simp [process_events]

/-- Witness for C4: a session started at t = 0 and still held at
t = 0.7 s fires one LongPress and is cleared; the next frame emits
nothing. -/
theorem claim_C4_witness :
    process_events ⟨some (12, 34), 0⟩ [] (7/10)
        = (⟨none, 0⟩, [⟨GestureType.longPress, 12, 34, 12, 34⟩])
    ∧ process_events ⟨none, 0⟩ [] 1 = (⟨none, 0⟩, []) :=
  claim_C4 12 34 0 (7/10) 1 (by norm_num [LONG_PRESS_MS])

/-- C9: a pointer-down arriving while a session is already active discards
the old session and records the new event's coordinates and time
(last-down-wins; the handler state holds at most one session), emitting no
gesture; a pointer-up with no active session emits no gesture and leaves
the state unchanged. -/
theorem claim_C9 (s : TouchState) (gs : List Gesture) (p : Int × Int)
    (x y : Int) (t : ℚ) :
    (s.touch_start = some p →
      processStep s gs (TouchEvent.down x y t) = (⟨some (x, y), t⟩, gs))
    ∧ (s.touch_start = none →
      processStep s gs (TouchEvent.up x y t) = (s, gs)) := by
  constructor
  · intro _
    rfl
  · intro h
    simp [processStep, h]

/-- Witness for C9: with a session at `(1, 2)` active, a new pointer-down
at `(7, 8)` replaces it with no gesture; a pointer-up with no session
emits nothing. -/
theorem claim_C9_witness :
    processStep ⟨some (1, 2), 0⟩ [] (TouchEvent.down 7 8 5)
        = (⟨some (7, 8), 5⟩, [])
    ∧ processStep ⟨none, 0⟩ [] (TouchEvent.up 7 8 5) = (⟨none, 0⟩, []) :=
  ⟨(claim_C9 ⟨some (1, 2), 0⟩ [] (1, 2) 7 8 5).1 rfl,
   (claim_C9 ⟨none, 0⟩ [] (0, 0) 7 8 5).2 rfl⟩

/-- C10: on an exact diagonal exceeding the swipe threshold
(`|dx| = |dy| > 50`), the classifier resolves the axis tie in favour of
the vertical axis: SwipeDown when `dy > 0`, SwipeUp when `dy < 0`, never a
horizontal swipe. -/
theorem claim_C10 (s0 : TouchState) (sx sy x y : Int) (t0 t1 now : ℚ)
    (heq : |x - sx| = |y - sy|) (hgt : 50 < |x - sx|) :
    (0 < y - sy →
      (process_events s0 [TouchEvent.down sx sy t0, TouchEvent.up x y t1] now).2
        = [⟨GestureType.swipeDown, x, y, sx, sy⟩])
    ∧ (y - sy < 0 →
      (process_events s0 [TouchEvent.down sx sy t0, TouchEvent.up x y t1] now).2
        = [⟨GestureType.swipeUp, x, y, sx, sy⟩]) := by
  have h2 : ¬ |y - sy| < |x - sx| := by rw [heq]; exact lt_irrefl _
  constructor
  · intro h3
    rw [process_events_pair s0 sx sy x y t0 t1 now _
      (classify_swipeDown sx sy x y _ _ _ (Or.inl hgt) h2 h3)]
  · intro h3
    rw [process_events_pair s0 sx sy x y t0 t1 now _
      (classify_swipeUp sx sy x y _ _ _ (Or.inl hgt) h2 h3)]

/-- Witness for C10: a perfect 60×60 diagonal drag down-right classifies
as SwipeDown, and up-left as SwipeUp. -/
theorem claim_C10_witness :
    (process_events ⟨none, 0⟩
        [TouchEvent.down 0 0 0, TouchEvent.up 60 60 (1/10)] 0).2
      = [⟨GestureType.swipeDown, 60, 60, 0, 0⟩]
    ∧ (process_events ⟨none, 0⟩
        [TouchEvent.down 100 100 0, TouchEvent.up 40 40 (1/10)] 0).2
      = [⟨GestureType.swipeUp, 40, 40, 100, 100⟩] := by
  constructor
  · exact (claim_C10 ⟨none, 0⟩ 0 0 60 60 0 (1/10) 0
      (by norm_num) (by norm_num)).1 (by norm_num)
  · exact (claim_C10 ⟨none, 0⟩ 100 100 40 40 0 (1/10) 0
      (by norm_num) (by norm_num)).2 (by norm_num)

/-! ## Claims about the screen manager's navigation -/

/-- C3: for `direction ∈ {-1, +1}`, `navigate` is a no-op (index
unchanged, no `on_leave`/`on_enter`) when `current_idx + direction` falls
outside `[0, n)`; otherwise it fires `on_leave` on the old screen, then
the index assignment, then `on_enter` on the new screen, each exactly once
and in that order. -/
theorem claim_C3 (n current_idx : Nat) (direction : Int)
    (_hdir : direction = -1 ∨ direction = 1) :
    (¬ (0 ≤ (current_idx : Int) + direction
          ∧ (current_idx : Int) + direction < (n : Int)) →
      navigate n current_idx direction = (current_idx, []))
    ∧ ((0 ≤ (current_idx : Int) + direction
          ∧ (current_idx : Int) + direction < (n : Int)) →
      navigate n current_idx direction
        = (((current_idx : Int) + direction).toNat,
           [MgrEvent.on_leave current_idx,
            MgrEvent.set_idx ((current_idx : Int) + direction).toNat,
            MgrEvent.on_enter ((current_idx : Int) + direction).toNat])) := by
  constructor
  · intro h
    simp only [navigate]
    rw [if_neg h]
  · intro h
    simp only [navigate]
    rw [if_pos h]

/-- Witness for C3: with three screens, `navigate(+1)` from the last index
is a no-op, and `navigate(+1)` from index 0 transitions to index 1 with
the leave/assign/enter trace. -/
theorem claim_C3_witness :
    navigate 3 2 1 = (2, [])
    ∧ navigate 3 0 1
        = (1, [MgrEvent.on_leave 0, MgrEvent.set_idx 1, MgrEvent.on_enter 1]) := by
  constructor
  · exact (claim_C3 3 2 1 (Or.inr rfl)).1 (by norm_num)
  · have h := (claim_C3 3 0 1 (Or.inr rfl)).2 (by norm_num)
    rw [h]
    decide

/-- C5: a dispatched SwipeLeft (resp. SwipeRight) is first offered to the
current screen's `on_swipe_left` (resp. `on_swipe_right`); when the hook
returns false the manager performs `navigate(+1)` (resp. `navigate(-1)`),
when it returns true the index is unchanged and no lifecycle hook fires;
and every dispatched gesture causes at most one index transition. -/
theorem claim_C5 (n i : Nat) (consumeLeft consumeRight : Bool) :
    (consumeLeft = false →
      dispatchGesture n i GestureType.swipeLeft consumeLeft consumeRight
        = ((navigate n i 1).1,
           MgrEvent.hook_swipe_left i :: (navigate n i 1).2))
    ∧ (consumeLeft = true →
      dispatchGesture n i GestureType.swipeLeft consumeLeft consumeRight
        = (i, [MgrEvent.hook_swipe_left i]))
    ∧ (consumeRight = false →
      dispatchGesture n i GestureType.swipeRight consumeLeft consumeRight
        = ((navigate n i (-1)).1,
           MgrEvent.hook_swipe_right i :: (navigate n i (-1)).2))
    ∧ (consumeRight = true →
      dispatchGesture n i GestureType.swipeRight consumeLeft consumeRight
        = (i, [MgrEvent.hook_swipe_right i]))
    ∧ (∀ gt : GestureType,
      ((dispatchGesture n i gt consumeLeft consumeRight).2.countP isSetIdx)
        ≤ 1) := by
  have hnav : ∀ d : Int, ((navigate n i d).2.countP isSetIdx) ≤ 1 := by
    intro d
    simp only [navigate]
    split_ifs
    · simp [List.countP_cons, isSetIdx]
    · simp
  refine ⟨?_, ?_, ?_, ?_, ?_⟩
  · intro h
    subst h
    simp [dispatchGesture]
  · intro h
    subst h
    simp [dispatchGesture]
  · intro h
    subst h
    simp [dispatchGesture]
  · intro h
    subst h
    simp [dispatchGesture]
  · intro gt
    cases gt <;>
      simp only [dispatchGesture] <;>
      first
        | (split_ifs <;>
            simp [List.countP_cons, isSetIdx, hnav])
        | simp [List.countP_cons, isSetIdx]

/-- Witness for C5: three screens starting at index 0, SwipeLeft not
consumed by the screen → index becomes 1 with the hook offer first, then
leave/assign/enter; SwipeLeft consumed → only the hook offer, index 0
kept. -/
theorem claim_C5_witness :
    dispatchGesture 3 0 GestureType.swipeLeft false false
        = (1, [MgrEvent.hook_swipe_left 0, MgrEvent.on_leave 0,
               MgrEvent.set_idx 1, MgrEvent.on_enter 1])
    ∧ dispatchGesture 3 0 GestureType.swipeLeft true false
        = (0, [MgrEvent.hook_swipe_left 0]) := by
  constructor
  · rw [(claim_C5 3 0 false false).1 rfl]
    decide
  · exact (claim_C5 3 0 true false).2.1 rfl

/-! ## Claims about the periodic refresh -/

theorem refreshLoop_no_raise (l : List Bool) (h : ∀ r ∈ l, r = false) :
    ∀ i : Nat, refreshLoop l i = (List.range' i l.length, none) := by
  induction l with
  | nil => intro i; simp [refreshLoop]
  | cons r rest ih =>
    intro i
    have hr : r = false := h r (List.mem_cons_self r rest)
    subst hr
    have ih' := ih (fun x hx => h x (List.mem_cons_of_mem _ hx)) (i + 1)
    simp [refreshLoop, ih', List.range'_succ]

theorem refreshLoop_cons_false (rest : List Bool) (i : Nat) :
    refreshLoop (false :: rest) i
      = (i :: (refreshLoop rest (i + 1)).1, (refreshLoop rest (i + 1)).2) :=
  rfl

theorem refreshLoop_first_raise (pre post : List Bool)
    (h : ∀ r ∈ pre, r = false) :
    ∀ i : Nat, refreshLoop (pre ++ true :: post) i
      = (List.range' i (pre.length + 1), some (i + pre.length)) := by
  induction pre with
  | nil => intro i; simp [refreshLoop, List.range'_succ]
  | cons r rest ih =>
    intro i
    have hr : r = false := h r (List.mem_cons_self r rest)
    subst hr
    have ih' := ih (fun x hx => h x (List.mem_cons_of_mem _ hx)) (i + 1)
    rw [List.cons_append, refreshLoop_cons_false, ih', List.length_cons]
    have harith : i + 1 + rest.length = i + (rest.length + 1) := by omega
    rw [harith]
    simp [List.range'_succ]

/-- Counterexample to C1: with three screens where screen 1's
`refresh_data` raises, the cycle invokes screens 0 and 1 only — screen 2,
which comes after the raising screen in list order, is not refreshed in
that cycle, contradicting the claim that every other screen's
`refresh_data` still runs. -/
theorem claim_C1_counterexample :
    (poll_data [false, true, false]).logged = some 1
    ∧ (poll_data [false, true, false]).invoked = [0, 1]
    ∧ 2 ∉ (poll_data [false, true, false]).invoked := by decide

/-- C1 (amended): `_poll_data` never propagates an exception (it always
returns a result, so the main loop does not crash).  When no screen
raises, every screen is refreshed in list order; when the first raising
screen is at index `pre.length`, exactly screens `0 … pre.length` have
their `refresh_data` invoked — screens before the raising one are
unaffected, screens after it are skipped for that cycle — and the
exception is caught and logged. -/
theorem claim_C1_amended (raises pre post : List Bool)
    (hall : ∀ r ∈ raises, r = false) (hpre : ∀ r ∈ pre, r = false) :
    poll_data raises = ⟨List.range raises.length, none⟩
    ∧ poll_data (pre ++ true :: post)
        = ⟨List.range (pre.length + 1), some pre.length⟩ := by
  constructor
  · have h := refreshLoop_no_raise raises hall 0
    simp [poll_data, h, List.range_eq_range']
  · have h := refreshLoop_first_raise pre post hpre 0
    simp [poll_data, h, List.range_eq_range']

/-- Witness for the amended C1 at concrete inputs: no screen raising
refreshes all three screens; screen 1 raising refreshes screens 0 and 1
and logs the exception. -/
theorem claim_C1_amended_witness :
    poll_data [false, false, false] = ⟨[0, 1, 2], none⟩
    ∧ poll_data [false, true, false] = ⟨[0, 1], some 1⟩ := by
  have h := claim_C1_amended [false, false, false] [false] [false]
    (by decide) (by decide)
  exact ⟨h.1, h.2⟩

/-- C7: when the elapsed time since `_last_poll` exceeds the poll
interval, the `run` iteration records the new timestamp *before* the
`create_task` call that schedules the background refresh (so certainly
before that task completes), the scheduled `_poll_data` task covers every
screen's `refresh_data` (all of `0 … n-1`, not only the current screen),
and an immediately following iteration within the interval does not
trigger a second refresh. -/
theorem claim_C7 (n : Nat) (last_poll now poll_interval now2 : ℚ)
    (h : now - last_poll > poll_interval)
    (h2 : now2 - now ≤ poll_interval) :
    pollCheck n last_poll now poll_interval
        = (now, [LoopAction.record_last_poll now,
                 LoopAction.schedule_refresh (List.range n)])
    ∧ (poll_data (List.replicate n false)).invoked = List.range n
    ∧ pollCheck n now now2 poll_interval = (now, []) := by
  refine ⟨?_, ?_, ?_⟩
  · simp only [pollCheck]
    rw [if_pos h]
  · have hl := refreshLoop_no_raise (List.replicate n false)
      (fun r hr => (List.eq_of_mem_replicate hr)) 0
    simp [poll_data, hl, List.range_eq_range']
  · simp only [pollCheck]
    rw [if_neg (not_lt.mpr h2)]

/-- Witness for C7: two screens, `_last_poll = 0`, interval 5: at
`now = 10` the refresh triggers, records 10 and schedules all screens;
at `now = 12` no second refresh triggers. -/
theorem claim_C7_witness :
    pollCheck 2 0 10 5
        = (10, [LoopAction.record_last_poll 10,
                LoopAction.schedule_refresh [0, 1]])
    ∧ (poll_data [false, false]).invoked = [0, 1]
    ∧ pollCheck 2 10 12 5 = (10, []) := by
  have h := claim_C7 2 0 10 5 12 (by norm_num) (by norm_num)
  refine ⟨by rw [h.1]; decide, ?_, h.2.2⟩
  have h2 := h.2.1
  simpa using h2

/-! ## Claim about the aggregate status -/

/-- C8: the overall status-bar colour equals the status of the first
screen in navigation order whose `get_status()` is not `"success"` (and
`"success"` when every screen reports success), given that `get_status`
only returns `"success"`, `"warning"` or `"error"`; in particular an
earlier `"warning"` is returned even when a later screen reports
`"error"`. -/
theorem claim_C8 (statuses : List String)
    (hdom : ∀ s ∈ statuses, s = "success" ∨ s = "warning" ∨ s = "error") :
    get_overall_status statuses
      = (statuses.find? (fun s => s ≠ "success")).getD "success" := by
  induction statuses with
  | nil => simp [get_overall_status]
  | cons a rest ih =>
    have ih' := ih (fun s hs => hdom s (List.mem_cons_of_mem _ hs))
    rcases hdom a (List.mem_cons_self a rest) with h | h | h <;>
      subst h <;>
      simp [get_overall_status, List.find?, ih']

/-- Witness for C8: statuses `["success", "warning", "error"]` yield
`"warning"` — the earlier warning wins over the later error — and an
all-success list yields `"success"`. -/
theorem claim_C8_witness :
    get_overall_status ["success", "warning", "error"] = "warning"
    ∧ get_overall_status ["success", "success"] = "success" := by
  constructor
  · rw [claim_C8 ["success", "warning", "error"] (by decide)]
    rfl
  · rw [claim_C8 ["success", "success"] (by decide)]
    rfl

/-! ## Claim about navigate_to -/

theorem navigateToLoop_not_mem (name : String) (cur : Nat) :
    ∀ (l : List String) (i : Nat), name ∉ l →
      navigateToLoop name cur l i = (cur, []) := by
  intro l
  induction l with
  | nil => intro i _; rfl
  | cons a rest ih =>
    intro i hmem
    have ha : ¬ (a = name) := fun hh => hmem (hh ▸ List.mem_cons_self a rest)
    simp only [navigateToLoop]
    rw [if_neg ha]
    exact ih (i + 1) (fun hm => hmem (List.mem_cons_of_mem _ hm))

theorem navigateToLoop_mem (name : String) (cur : Nat) :
    ∀ (l : List String) (i : Nat), name ∈ l →
      navigateToLoop name cur l i
        = (if i + l.findIdx (fun s => s = name) ≠ cur
           then (i + l.findIdx (fun s => s = name),
                 [MgrEvent.on_leave cur,
                  MgrEvent.set_idx (i + l.findIdx (fun s => s = name)),
                  MgrEvent.on_enter (i + l.findIdx (fun s => s = name))])
           else (cur, [])) := by
  intro l
  induction l with
  | nil => intro i h; simp at h
  | cons a rest ih =>
    intro i hmem
    by_cases ha : a = name
    · have hfind : (a :: rest).findIdx (fun s => s = name) = 0 := by
        simp [List.findIdx_cons, ha]
      rw [hfind]
      simp only [navigateToLoop]
      rw [if_pos ha, Nat.add_zero]
    · have hmem' : name ∈ rest := by
        rcases List.mem_cons.mp hmem with h | h
        · exact absurd h.symm ha
        · exact h
      have hfind : (a :: rest).findIdx (fun s => s = name)
          = rest.findIdx (fun s => s = name) + 1 := by
        simp [List.findIdx_cons, ha]
      rw [hfind]
      simp only [navigateToLoop]
      rw [if_neg ha, ih (i + 1) hmem']
      have harith : i + (rest.findIdx (fun s => s = name) + 1)
          = (i + 1) + rest.findIdx (fun s => s = name) := by omega
      rw [harith]

/-- C6: over a screen list with pairwise-distinct names (as in the actual
manager, whose six screens all have distinct `name` attributes),
`navigate_to(name)` is a no-op with no lifecycle calls when `name` is the
current screen's name or matches no screen; when `name` matches a
non-current screen it fires `on_leave` on the old screen, assigns the
index of the first matching screen, and fires `on_enter` on it. -/
theorem claim_C6 (names : List String) (current_idx : Nat)
    (screen_name : String) (hnodup : names.Nodup)
    (hcur : current_idx < names.length) :
    ((names.get ⟨current_idx, hcur⟩ = screen_name ∨ screen_name ∉ names) →
      navigate_to names current_idx screen_name = (current_idx, []))
    ∧ (screen_name ∈ names → names.get ⟨current_idx, hcur⟩ ≠ screen_name →
      navigate_to names current_idx screen_name
        = (names.findIdx (fun s => s = screen_name),
           [MgrEvent.on_leave current_idx,
            MgrEvent.set_idx (names.findIdx (fun s => s = screen_name)),
            MgrEvent.on_enter (names.findIdx (fun s => s = screen_name))])) := by
  constructor
  · rintro (hget | hnot)
    · have hmem : screen_name ∈ names := hget ▸ List.get_mem names current_idx hcur
      have hk : names.findIdx (fun s => s = screen_name) < names.length :=
        List.findIdx_lt_length_of_exists ⟨screen_name, hmem, by simp⟩
      have hpk : names.get ⟨names.findIdx (fun s => s = screen_name), hk⟩
          = screen_name := by
        have := @List.findIdx_getElem _ (fun s => s = screen_name) names hk
        simpa using this
      have hidx : names.findIdx (fun s => s = screen_name) = current_idx := by
        have heq : names.get ⟨names.findIdx (fun s => s = screen_name), hk⟩
            = names.get ⟨current_idx, hcur⟩ := hpk.trans hget.symm
        have := (List.Nodup.get_inj_iff hnodup).mp heq
        exact congrArg Fin.val this
      rw [navigate_to, navigateToLoop_mem screen_name current_idx names 0 hmem]
      rw [hidx, Nat.zero_add]
      simp
    · exact navigateToLoop_not_mem screen_name current_idx names 0 hnot
  · intro hmem hne
    have hk : names.findIdx (fun s => s = screen_name) < names.length :=
      List.findIdx_lt_length_of_exists ⟨screen_name, hmem, by simp⟩
    have hpk : names.get ⟨names.findIdx (fun s => s = screen_name), hk⟩
        = screen_name := by
      have := @List.findIdx_getElem _ (fun s => s = screen_name) names hk
      simpa using this
    have hidx : names.findIdx (fun s => s = screen_name) ≠ current_idx := by
      intro hcontra
      apply hne
      rw [← hpk]
      exact congrArg names.get (Fin.ext hcontra.symm)
    rw [navigate_to, navigateToLoop_mem screen_name current_idx names 0 hmem]
    rw [Nat.zero_add, if_pos hidx]

/-- Witness for C6 on the manager's actual screen names:
`navigate_to` with the current screen's own name (index 0, `"home"`) is a
no-op, with an unknown name is a no-op, and with `"standup"` from index 0
transitions to index 3 with the leave/assign/enter trace. -/
theorem claim_C6_witness :
    navigate_to ["home", "pr_triage", "ci_diagnosis", "standup", "deploy",
        "context_chat"] 0 "home" = (0, [])
    ∧ navigate_to ["home", "pr_triage", "ci_diagnosis", "standup", "deploy",
        "context_chat"] 0 "nope" = (0, [])
    ∧ navigate_to ["home", "pr_triage", "ci_diagnosis", "standup", "deploy",
        "context_chat"] 0 "standup"
      = (3, [MgrEvent.on_leave 0, MgrEvent.set_idx 3, MgrEvent.on_enter 3]) := by
  have h1 := claim_C6 ["home", "pr_triage", "ci_diagnosis", "standup",
    "deploy", "context_chat"] 0 "home" (by decide) (by decide)
  have h2 := claim_C6 ["home", "pr_triage", "ci_diagnosis", "standup",
    "deploy", "context_chat"] 0 "nope" (by decide) (by decide)
  have h3 := claim_C6 ["home", "pr_triage", "ci_diagnosis", "standup",
    "deploy", "context_chat"] 0 "standup" (by decide) (by decide)
  refine ⟨h1.1 (Or.inl (by decide)), h2.1 (Or.inr (by decide)), ?_⟩
  rw [h3.2 (by decide) (by decide)]
  decide

end DevDash
